import Mathlib

/-!
# Formal model of the radio-browser-skill (src/__init__.py)

A shallow embedding of the Mycroft "radio browser" skill.  External
effects are modelled explicitly:

* the RadioBrowser directory client is an oracle function
  (`String → List Station` for name search, `String → String → List Station`
  for tag search, the second argument being the requested ordering);
* failure of `RadioBrowser()` construction is a boolean flag `rbFails`
  (the Python code catches the construction exception, logs it and
  continues, so the subsequent `rb.search` raises UnboundLocalError);
* Python exceptions are the `PyErr` type and fallible functions return
  `Except PyErr _`;
* the pulse CLI transcript read by `find_vlc` is a list of lines;
  exhausting it models the socket timeout;
* the pulse daemon state used by `set_volume` is a map from sink-input
  ids to their current info.

Python `str.replace` (which replaces every non-overlapping occurrence,
left to right), substring containment, the regexes
`" [0-9]+ "`, `r"\b(one|...|nine)\b"` and `r"index: (\d+)"`, and Python
truthiness of strings are reimplemented below on `List Char`.
-/

/-- Python exceptions that the skill can raise. -/
inductive PyErr where
  | typeError
  | unboundLocal
  | keyError
  | timeout
  | indexError
  | recursionError
  | pulseIndexError
deriving DecidableEq, Repr

/-- mycroft.skills.common_play_skill.CPSMatchLevel. -/
inductive CPSMatchLevel where
  | EXACT
  | MULTI_KEY
  | TITLE
  | ARTIST
  | CATEGORY
  | GENERIC
deriving DecidableEq, Repr

/-- One record returned by the directory service, restricted to the
fields the skill reads. -/
structure Station where
  name : String
  url_resolved : String
deriving DecidableEq, Repr

/-- A Python dict with string keys and values, as an association list. -/
abbrev PyDict := List (String × String)

/-- `d[k]` lookup returning `none` when the key is missing. -/
def dictGet (d : PyDict) (k : String) : Option String :=
  match d with
  | [] => none
  | (k2, v) :: rest => if k2 == k then some v else dictGet rest k

/-- The tuple `(phrase, CPSMatchLevel, {"url": ...})` returned by the
match functions. -/
abbrev MatchTuple := String × CPSMatchLevel × PyDict

/-! ## String primitives (Python semantics) -/

/-- Substring test on char lists: `pat` occurs somewhere in `s`
(Python `pat in s`). -/
def containsSub (pat : List Char) : List Char → Bool
  | [] => pat.isEmpty
  | c :: rest => pat.isPrefixOf (c :: rest) || containsSub pat rest

/-- Python `pat in s` on strings. -/
def containsStr (pat s : String) : Bool :=
  containsSub pat.data s.data

/-- Python truthiness of a string: non-empty. -/
def pyTruthy (s : String) : Bool :=
  !s.data.isEmpty

/-- Python `s.lower()` (ASCII; every character the skill handles is
ASCII). -/
def pyLower (s : String) : String :=
  ⟨s.data.map Char.toLower⟩

/-- Python `s.replace(pat, new)` on char lists: replace every
non-overlapping occurrence, scanning left to right and resuming after
the replaced occurrence.  Structural recursion on fuel (each step
consumes at least one character, so `length + 1` fuel suffices).
Every call site in the skill passes a non-empty pattern; the
`!pat.isEmpty` guard only rules out the (unused) empty-pattern case. -/
def pyReplaceGo (pat new : List Char) : Nat → List Char → List Char
  | 0, s => s
  | _ + 1, [] => []
  | fuel + 1, c :: rest =>
    if !pat.isEmpty && pat.isPrefixOf (c :: rest) then
      new ++ pyReplaceGo pat new fuel ((c :: rest).drop pat.length)
    else
      c :: pyReplaceGo pat new fuel rest

/-- Replacement of every occurrence on char lists. -/
def pyReplaceCL (pat new s : List Char) : List Char :=
  pyReplaceGo pat new (s.length + 1) s

/-- Python `s.replace(pat, new)` on strings. -/
def pyReplace (s pat new : String) : String :=
  ⟨pyReplaceCL pat.data new.data s.data⟩

/-- Replace only the first occurrence (used to state the spec's
"first occurrence only" reading, not by the code). -/
def pyReplaceFirstCL (pat new : List Char) : List Char → List Char
  | [] => []
  | c :: rest =>
    if pat.isPrefixOf (c :: rest) then
      new ++ (c :: rest).drop pat.length
    else
      c :: pyReplaceFirstCL pat new rest

/-- First-occurrence-only replacement on strings. -/
def pyReplaceFirst (s pat new : String) : String :=
  ⟨pyReplaceFirstCL pat.data new.data s.data⟩

/-! ## Regex models -/

/-- After an initial digit: consume the rest of the digit run, then
require a space (tail of matching `[0-9]+ `). -/
def afterDigitsSpace : List Char → Bool
  | [] => false
  | c :: rest => if c.isDigit then afterDigitsSpace rest else c == ' '

/-- `[0-9]+ ` matches at the head of the list. -/
def digitRunThenSpace : List Char → Bool
  | [] => false
  | d :: rest => d.isDigit && afterDigitsSpace rest

/-- `re.search(" [0-9]+ ", ·)` on char lists: some position starts a
space, a non-empty digit run, then a space. -/
def hasFlankedAux : List Char → Bool
  | [] => false
  | c :: rest => (c == ' ' && digitRunThenSpace rest) || hasFlankedAux rest

/-- `re.search(" [0-9]+ ", phrase)` is not None. -/
def hasFlankedDigits (phrase : String) : Bool :=
  hasFlankedAux phrase.data

/-- The alternatives of `numbers_regex = r"\b(one|...|nine)\b"`, in
alternation order. -/
def numberWords : List String :=
  ["one", "two", "three", "four", "five", "six", "seven", "eight", "nine"]

/-- Python `\w` (ASCII part): letters, digits, underscore. -/
def isWordChar (c : Char) : Bool :=
  c.isAlphanum || c == '_'

/-- Is the optional next character a word character (`false` at end of
string, giving a `\b` boundary there)? -/
def isWordCharOpt : Option Char → Bool
  | none => false
  | some c => isWordChar c

/-- Try to match one of `numberWords` at the head of `s` with `\b` on
both sides; `prevIsWord` tells whether the preceding character is a
word character.  Returns the matched word (first alternative wins, as
in the regex). -/
def tryWordAt (prevIsWord : Bool) (s : List Char) : Option (List Char) :=
  if prevIsWord then none
  else (numberWords.map String.data).find? fun w =>
    w.isPrefixOf s && !isWordCharOpt (s.drop w.length).head?

/-- Scan for all non-overlapping `numbers_regex` matches, left to
right (`re.findall`).  Fuel bounds the scan; each step consumes at
least one character, so `length + 1` fuel suffices. -/
def wordScanFuel : Nat → Bool → List Char → List (List Char)
  | 0, _, _ => []
  | _ + 1, _, [] => []
  | fuel + 1, prevW, c :: rest =>
    match tryWordAt prevW (c :: rest) with
    | some w => w :: wordScanFuel fuel true ((c :: rest).drop w.length)
    | none => wordScanFuel fuel (isWordChar c) rest

/-- `re.findall(numbers_regex, phrase)`. -/
def wordMatches (phrase : String) : List String :=
  (wordScanFuel (phrase.data.length + 1) false phrase.data).map String.mk

/-- `str(w2n.word_to_num(w))` for the words `numbers_regex` can
produce (only ever called on those words; the final catch-all is dead). -/
def w2nDigit (w : String) : String :=
  if w == "one" then "1"
  else if w == "two" then "2"
  else if w == "three" then "3"
  else if w == "four" then "4"
  else if w == "five" then "5"
  else if w == "six" then "6"
  else if w == "seven" then "7"
  else if w == "eight" then "8"
  else if w == "nine" then "9"
  else "0"

/-- The loop `for number in num: phrase = phrase.replace(number,
str(w2n.word_to_num(number)))` over the `numbers_regex` matches. -/
def replaceNumberWords (phrase : String) : String :=
  (wordMatches phrase).foldl (fun p w => pyReplace p w (w2nDigit w)) phrase

/-! ## Station and genre resolvers -/

/-- One call frame of `match_station_name`, with explicit fuel for the
recursion (Python's own recursion limit plays the role of the fuel;
exhaustion is RecursionError).

`rbFails` models `RadioBrowser()` raising: the Python code catches and
logs that exception and continues, so the following `rb.search` use of
the never-assigned local raises UnboundLocalError.

On a non-empty result list the first record is accepted unconditionally
with `CPSMatchLevel.EXACT`.  On an empty result list, if the phrase has
a space-flanked digit run the code runs `phrase.replace(num, ...)` with
`num` being the *list* returned by `re.findall` — a TypeError.  Else, if
a `numbers_regex` word occurs, the words are replaced by digits and the
function recurses, but the recursive value is discarded and the call
falls off the end, returning None. -/
def msn_fuel : Nat → Bool → (String → List Station) → String →
    Except PyErr (Option MatchTuple)
  | 0, _, _, _ => .error .recursionError
  | fuel + 1, rbFails, search, phrase =>
    if rbFails then .error .unboundLocal
    else
      match search phrase with
      | r :: _ => .ok (some (phrase, CPSMatchLevel.EXACT, [("url", r.url_resolved)]))
      | [] =>
        if hasFlankedDigits phrase then .error .typeError
        else if (wordMatches phrase).isEmpty then .ok none
        else
          match msn_fuel fuel rbFails search (replaceNumberWords phrase) with
          | .error e => .error e
          | .ok _ => .ok none

/-- `match_station_name`, entered with Python's default recursion
limit as fuel. -/
def match_station_name (rbFails : Bool) (search : String → List Station)
    (phrase : String) : Except PyErr (Option MatchTuple) :=
  msn_fuel 1000 rbFails search phrase

/-- `phrase.lower().replace("a ", "").replace(" station", "")` from
`match_genre`. -/
def genre_strip (phrase : String) : String :=
  pyReplace (pyReplace (pyLower phrase) "a " "") " station" ""

/-- Modelled from the spec: the stripping as the spec words it, with
`"a "` and `" station"` removed "first occurrence only, order
matters".  Stated only to compare with the code's `genre_strip`. -/
def genre_strip_firstOnly (phrase : String) : String :=
  pyReplaceFirst (pyReplaceFirst (pyLower phrase) "a " "") " station" ""

/-- `match_genre`: search by tag with the stripped phrase and
`order="votes"`; accept the first record; on an empty result fall back
to `match_station_name` on the *unstripped* phrase, discarding its
value (the fall-through returns None), while its exception, if any,
propagates. -/
def match_genre (rbFails : Bool) (search : String → List Station)
    (tagSearch : String → String → List Station) (phrase : String) :
    Except PyErr (Option MatchTuple) :=
  if rbFails then .error .unboundLocal
  else
    match tagSearch (genre_strip phrase) "votes" with
    | r :: _ => .ok (some (phrase, CPSMatchLevel.EXACT, [("url", r.url_resolved)]))
    | [] =>
      match match_station_name rbFails search phrase with
      | .error e => .error e
      | .ok _ => .ok none

/-- The Python condition `"a " and " station" in search_phrase`:
`and` returns its second operand when the first is truthy, so the
truthiness of the whole expression is that of the literal `"a "` if it
is falsy, else the membership test. -/
def cps_cond (search_phrase : String) : Bool :=
  if pyTruthy "a " then containsStr " station" search_phrase
  else pyTruthy "a "

/-- `CPS_match_query_phrase`: lower-case the phrase; the genre branch
is taken when `cps_cond` holds and receives the lower-cased phrase,
the station branch receives the original phrase. -/
def CPS_match_query_phrase (rbFails : Bool) (search : String → List Station)
    (tagSearch : String → String → List Station) (phrase : String) :
    Except PyErr (Option MatchTuple) :=
  if cps_cond (pyLower phrase) then match_genre rbFails search tagSearch (pyLower phrase)
  else match_station_name rbFails search phrase

/-! ## Volume sideband -/

/-- `re.findall(r"index: (\d+)", line)` followed by `int(·[0])`:
the leading digit run captured after the first occurrence of
`"index: "`; `none` when there is no match (so that `[0]` raises
IndexError). -/
def takeDigits : List Char → List Char
  | [] => []
  | c :: rest => if c.isDigit then c :: takeDigits rest else []

/-- `int(ds)` on a non-empty digit string. -/
def charsToNat (ds : List Char) : Nat :=
  ds.foldl (fun a c => 10 * a + (c.toNat - 48)) 0

/-- Scan for the first `index: (\d+)` match. -/
def parseIndexAux : List Char → Option Nat
  | [] => none
  | c :: rest =>
    if "index: ".data.isPrefixOf (c :: rest) then
      match (c :: rest).drop 7 with
      | d :: tail =>
        if d.isDigit then some (charsToNat (takeDigits (d :: tail)))
        else parseIndexAux rest
      | [] => parseIndexAux rest
    else parseIndexAux rest

/-- `int(re.findall(r"index: (\d+)", line)[0])`, `none` for the
IndexError case. -/
def parseIndexCapture (line : String) : Option Nat :=
  parseIndexAux line.data

/-- The `if "index" in line` update of `index_id` performed on each
scanned line. -/
def readLineStep (idx : Int) (l : String) : Except PyErr Int :=
  if containsStr "index" l then
    match parseIndexCapture l with
    | none => .error .indexError
    | some k => .ok (Int.ofNat k)
  else .ok idx

/-- The `while line:` loop of `find_vlc`.  `prev` is the line the loop
condition inspects; the body then reads the next line of the
transcript and scans it, so the line read before the loop is never
examined.  Running out of transcript models `socket.timeout`, which
the loop catches (`except socket.timeout: pass`), returning whatever
was found. -/
def find_vlc_go (prev : String) (rest : List String) (vlc idx : Int) :
    Except PyErr Int :=
  if pyTruthy prev then
    match rest with
    | [] => .ok vlc
    | l :: rest2 =>
      match readLineStep idx l with
      | .error e => .error e
      | .ok idx2 =>
        if -1 < idx2 then
          if containsStr "application.name" l then
            if containsStr "VLC" l then .ok idx2
            else find_vlc_go l rest2 vlc idx2
          else find_vlc_go l rest2 vlc idx2
        else find_vlc_go l rest2 vlc idx2
  else .ok vlc

/-- `find_vlc` over a transcript of lines.  The first `readline`
(before the loop, outside the `try`) consumes — without examining —
the transcript's first line; on an empty transcript it raises
`socket.timeout` uncaught. -/
def find_vlc (transcript : List String) : Except PyErr Int :=
  match transcript with
  | [] => .error .timeout
  | l :: rest => find_vlc_go l rest (-1) (-1)

/-- The `index:` line of a sink block, as the pulse CLI prints it from
a digit string. -/
def indexLine (ds : List Char) : String :=
  "index: " ++ String.mk ds

/-- The `application.name` line of a sink block. -/
def appLine (app : String) : String :=
  "application.name = \"" ++ app ++ "\""

/-- A pulse volume descriptor, reduced to the one component the skill
touches; `value_flat` is kept as an exact rational. -/
structure PulseVolume where
  value_flat : ℚ
deriving DecidableEq, Repr

/-- The sink-input info `pulse.sink_input_info` returns, reduced to
the field the skill reads. -/
structure SinkInputInfo where
  volume : PulseVolume
deriving DecidableEq, Repr

/-- `set_volume(sink_input, vol=0.5)`: fetch the current info for the
sink (a missing sink raises, as pulsectl does for an unknown index),
overwrite the descriptor's flat value with `vol` and write it back.
The result is the write request `(sink, descriptor)` the daemon
receives. -/
def set_volume (pulse : Int → Option SinkInputInfo) (sink_input : Int)
    (vol : ℚ := 1 / 2) : Except PyErr (Int × PulseVolume) :=
  match pulse sink_input with
  | none => .error .pulseIndexError
  | some _client => .ok (sink_input, { value_flat := vol })

/-! ## Playback bridge -/

/-- Calls made on the host audio service. -/
inductive AudioAction where
  | stop
  | play (url : String)
deriving DecidableEq, Repr

/-- `CPS_start`: stop current playback if any, then read `data["url"]`
and play it.  The result is the list of audio-service calls performed,
plus the KeyError if `"url"` is missing (the stop has already happened
by then, so it is kept in the list either way). -/
def CPS_start (isPlaying : Bool) (data : PyDict) :
    List AudioAction × Option PyErr :=
  match dictGet data "url" with
  | none => ((if isPlaying then [AudioAction.stop] else []), some PyErr.keyError)
  | some url =>
    ((if isPlaying then [AudioAction.stop] else []) ++ [AudioAction.play url],
      none)

/-- `handle_intent`: resolve the slot value with `match_station_name`
(`None[2]` raises TypeError when it resolved nothing, `["url"]` raises
KeyError when absent), play the url, locate VLC in the transcript and
set its volume to 0.6.  The result is the played url together with the
volume write request. -/
def handle_intent (rbFails : Bool) (search : String → List Station)
    (pulse : Int → Option SinkInputInfo) (transcript : List String)
    (slot : String) : Except PyErr (String × Int × PulseVolume) :=
  match match_station_name rbFails search slot with
  | .error e => .error e
  | .ok none => .error .typeError
  | .ok (some (_, _, d)) =>
    match dictGet d "url" with
    | none => .error .keyError
    | some url =>
      match find_vlc transcript with
      | .error e => .error e
      | .ok vlc =>
        match set_volume pulse vlc 0.6 with
        | .error e => .error e
        | .ok w => .ok (url, w)

/-! ## Helper lemmas -/

theorem takeDigits_eq_self (ds : List Char) (h : ∀ c ∈ ds, c.isDigit = true) :
    takeDigits ds = ds := by
  induction ds with
  | nil => rfl
  | cons c rest ih =>
    have hc : c.isDigit = true := h c (by simp)
    simp only [takeDigits, hc, if_true, List.cons.injEq, true_and]
    exact ih fun d hd => h d (by simp [hd])

theorem msn_fuel_succ (fuel : Nat) (rbFails : Bool)
    (search : String → List Station) (phrase : String) :
    msn_fuel (fuel + 1) rbFails search phrase =
      (if rbFails then .error .unboundLocal
      else
        match search phrase with
        | r :: _ =>
          .ok (some (phrase, CPSMatchLevel.EXACT, [("url", r.url_resolved)]))
        | [] =>
          if hasFlankedDigits phrase then .error .typeError
          else if (wordMatches phrase).isEmpty then .ok none
          else
            match msn_fuel fuel rbFails search (replaceNumberWords phrase) with
            | .error e => .error e
            | .ok _ => .ok none) := rfl

theorem parse_indexLine (d : Char) (tail : List Char) (hd : d.isDigit = true)
    (htail : ∀ c ∈ tail, c.isDigit = true) :
    parseIndexCapture (indexLine (d :: tail)) = some (charsToNat (d :: tail)) := by
  have step : parseIndexCapture (indexLine (d :: tail)) =
      if d.isDigit then some (charsToNat (takeDigits (d :: tail)))
      else parseIndexAux ("ndex: ".data ++ (d :: tail)) := rfl
  rw [step]
  simp only [hd, if_true]
  rw [takeDigits_eq_self]
  intro c hc
  rcases List.mem_cons.mp hc with h1 | h2
  · exact h1 ▸ hd
  · exact htail c h2

theorem pyTruthy_indexLine (ds : List Char) : pyTruthy (indexLine ds) = true := rfl

theorem pyTruthy_appLine (a : String) : pyTruthy (appLine a) = true := rfl

theorem contains_index_indexLine (ds : List Char) :
    containsStr "index" (indexLine ds) = true := rfl

theorem contains_appname_appLine (a : String) :
    containsStr "application.name" (appLine a) = true := rfl

theorem readLineStep_indexLine (idx : Int) (d : Char) (tail : List Char)
    (hd : d.isDigit = true) (htail : ∀ c ∈ tail, c.isDigit = true) :
    readLineStep idx (indexLine (d :: tail)) =
      .ok (Int.ofNat (charsToNat (d :: tail))) := by
  rw [readLineStep, parse_indexLine d tail hd htail]
  simp [contains_index_indexLine]

theorem readLineStep_skip (idx : Int) (l : String)
    (hl : containsStr "index" l = false) : readLineStep idx l = .ok idx := by
  simp [readLineStep, hl]

theorem find_vlc_go_nil (prev : String) (vlc idx : Int) :
    find_vlc_go prev [] vlc idx = .ok vlc := by
  rw [find_vlc_go.eq_def]
  cases pyTruthy prev <;> simp

theorem find_vlc_go_cons (prev l : String) (rest : List String) (vlc idx : Int)
    (hprev : pyTruthy prev = true) :
    find_vlc_go prev (l :: rest) vlc idx =
      (match readLineStep idx l with
      | .error e => .error e
      | .ok idx2 =>
        if -1 < idx2 then
          if containsStr "application.name" l then
            if containsStr "VLC" l then .ok idx2
            else find_vlc_go l rest vlc idx2
          else find_vlc_go l rest vlc idx2
        else find_vlc_go l rest vlc idx2) := by
  rw [find_vlc_go.eq_def, hprev]
  simp

theorem neg_one_lt_ofNat (n : Nat) : (-1 : Int) < Int.ofNat n :=
  lt_of_lt_of_le (by norm_num) (Int.ofNat_nonneg n)

/-! ## Claims -/

/-- C1: whenever the name search returns a non-empty result list,
`match_station_name` returns the tuple `(phrase, CPSMatchLevel.EXACT,
{"url": first result's url_resolved})`; and whenever any call of the
resolver returns a tuple at all, its confidence component is
`CPSMatchLevel.EXACT` — a static policy, never a computed score. -/
theorem msn_c1 (search : String → List Station) (phrase : String) (r : Station)
    (rest : List Station) (h : search phrase = r :: rest) :
    match_station_name false search phrase =
      .ok (some (phrase, CPSMatchLevel.EXACT, [("url", r.url_resolved)])) ∧
    ∀ (fuel : Nat) (rbF : Bool) (search2 : String → List Station)
      (phrase2 : String) (t : MatchTuple),
      msn_fuel fuel rbF search2 phrase2 = .ok (some t) →
      t.2.1 = CPSMatchLevel.EXACT := by
  constructor
  · rw [match_station_name, show (1000 : Nat) = 999 + 1 from rfl, msn_fuel_succ]
    simp [h]
  · intro fuel rbF search2 phrase2 t ht
    match fuel with
    | 0 => simp [msn_fuel] at ht
    | fuel + 1 =>
      rw [msn_fuel_succ] at ht
      cases rbF
      · simp only [Bool.false_eq_true, if_false] at ht
        cases hs : search2 phrase2 with
        | cons r2 rest2 =>
          rw [hs] at ht
          simp only [Except.ok.injEq, Option.some.injEq] at ht
          rw [← ht]
        | nil =>
          rw [hs] at ht
          split at ht
          · simp_all
          · split at ht
            · simp_all
            · split at ht
              · simp_all
              · split at ht <;> simp_all
      · simp at ht

/-- Witness for C1 at a concrete search oracle and phrase. -/
theorem msn_c1_witness :
    match_station_name false (fun _ => [⟨"BBC", "http://bbc.example/stream"⟩])
        "bbc" =
      .ok (some ("bbc", CPSMatchLevel.EXACT, [("url", "http://bbc.example/stream")])) ∧
    ∀ (fuel : Nat) (rbF : Bool) (search2 : String → List Station)
      (phrase2 : String) (t : MatchTuple),
      msn_fuel fuel rbF search2 phrase2 = .ok (some t) →
      t.2.1 = CPSMatchLevel.EXACT :=
  msn_c1 (fun _ => [⟨"BBC", "http://bbc.example/stream"⟩]) "bbc"
    ⟨"BBC", "http://bbc.example/stream"⟩ [] rfl

/-- C2 counterexample: for the non-empty phrase "bbc radio" the
condition `"a " and " station" in search_phrase` is false and
`CPS_match_query_phrase` takes the Station Resolver branch (the result
comes from the name-search oracle, not the tag-search oracle), refuting
"the Genre Resolver branch is taken for every non-empty phrase". -/
theorem cps_c2_counterexample :
    cps_cond "bbc radio" = false ∧
    CPS_match_query_phrase false (fun _ => [⟨"A", "urlA"⟩])
        (fun _ _ => [⟨"B", "urlB"⟩]) "bbc radio" =
      .ok (some ("bbc radio", CPSMatchLevel.EXACT, [("url", "urlA")])) ∧
    ("urlA" : String) ≠ "urlB" :=
  ⟨rfl, rfl, by decide⟩

/-- C2 amended: the conjunction `"a " and " station" in search_phrase`
degenerates to the membership test `" station" in search_phrase` (the
`"a "` operand is a truthy constant), so the Genre Resolver branch is
taken exactly when the lower-cased phrase contains " station", and the
Station Resolver branch otherwise. -/
theorem cps_c2_amended (rbF : Bool) (search : String → List Station)
    (tagSearch : String → String → List Station) (phrase : String) :
    cps_cond (pyLower phrase) = containsStr " station" (pyLower phrase) ∧
    CPS_match_query_phrase rbF search tagSearch phrase =
      (if containsStr " station" (pyLower phrase) then
        match_genre rbF search tagSearch (pyLower phrase)
      else match_station_name rbF search phrase) :=
  ⟨rfl, rfl⟩

/-- C3 counterexample: for "radio 5 fm" with an empty name search,
the digit branch does not make the function return nothing — the
`phrase.replace(num, ...)` call, whose first argument is the *list*
returned by `re.findall`, raises TypeError, which propagates. -/
theorem msn_c3_counterexample :
    match_station_name false (fun _ => ([] : List Station)) "radio 5 fm" =
      .error .typeError ∧
    match_station_name false (fun _ => ([] : List Station)) "radio 5 fm" ≠
      .ok none := by
  refine ⟨rfl, ?_⟩
  intro hcontra
  rw [show match_station_name false (fun _ => ([] : List Station)) "radio 5 fm" =
    Except.error PyErr.typeError from rfl] at hcontra
  exact Except.noConfusion hcontra

/-- C3 amended: on a phrase with a space-flanked digit run and an empty
name-search result, `match_station_name` raises TypeError at the
`phrase.replace(num, ...)` call (`num` is the list of digit substrings,
not a string), so the recursive retry never runs and the caller
observes an uncaught TypeError rather than a resolved station. -/
theorem msn_c3_amended (search : String → List Station) (phrase : String)
    (h1 : search phrase = []) (h2 : hasFlankedDigits phrase = true) :
    match_station_name false search phrase = .error .typeError := by
  rw [match_station_name, show (1000 : Nat) = 999 + 1 from rfl, msn_fuel_succ]
  simp [h1, h2]

/-- Witness for C3 amended at a concrete phrase. -/
theorem msn_c3_amended_witness :
    match_station_name false (fun _ => ([] : List Station)) "play bbc 1 radio" =
      .error .typeError :=
  msn_c3_amended (fun _ => []) "play bbc 1 radio" rfl rfl

/-- C5 counterexample: with both searches empty on "radio 5 fm",
`match_genre` does not yield an absent match — the fallback
`match_station_name` call raises TypeError (digit branch) and the
exception propagates out of `match_genre`. -/
theorem genre_c5_counterexample :
    match_genre false (fun _ => ([] : List Station))
        (fun _ _ => ([] : List Station)) "radio 5 fm" = .error .typeError ∧
    match_genre false (fun _ => ([] : List Station))
        (fun _ _ => ([] : List Station)) "radio 5 fm" ≠ .ok none := by
  refine ⟨rfl, ?_⟩
  intro hcontra
  rw [show match_genre false (fun _ => ([] : List Station))
    (fun _ _ => ([] : List Station)) "radio 5 fm" =
    Except.error PyErr.typeError from rfl] at hcontra
  exact Except.noConfusion hcontra

/-- C5 amended: when the tag search is empty, `match_genre` calls
`match_station_name` on the original (unstripped) phrase and discards
its value: whenever that fallback call returns normally — whatever it
resolved — `match_genre` returns None; when the fallback raises, the
exception propagates instead of a no-match result. -/
theorem genre_c5_amended (rbF : Bool) (search : String → List Station)
    (tagSearch : String → String → List Station) (phrase : String)
    (res : Option MatchTuple)
    (hTag : tagSearch (genre_strip phrase) "votes" = [])
    (hFallback : match_station_name rbF search phrase = .ok res) :
    match_genre rbF search tagSearch phrase = .ok none := by
  cases rbF
  · simp [match_genre, hTag, hFallback]
  · have herr : match_station_name true search phrase = .error .unboundLocal := rfl
    rw [herr] at hFallback
    exact absurd hFallback (by simp)

/-- Witness for C5 amended: the fallback resolves a station, yet
`match_genre` returns None. -/
theorem genre_c5_amended_witness :
    match_genre false (fun _ => [⟨"S", "http://s.example"⟩])
        (fun _ _ => ([] : List Station)) "rock" = .ok none :=
  genre_c5_amended false (fun _ => [⟨"S", "http://s.example"⟩]) (fun _ _ => [])
    "rock" (some ("rock", CPSMatchLevel.EXACT, [("url", "http://s.example")]))
    rfl rfl

/-- C6: when construction of the RadioBrowser client raises, the
exception is logged and swallowed and both resolvers continue into the
use of the never-assigned `rb` local, terminating with an uncaught
UnboundLocalError instead of an absent-match result. -/
theorem rb_failure_c6 (search : String → List Station)
    (tagSearch : String → String → List Station) (phrase : String) :
    match_station_name true search phrase = .error .unboundLocal ∧
    match_genre true search tagSearch phrase = .error .unboundLocal :=
  ⟨rfl, rfl⟩

/-- C4 counterexample: Python `str.replace` removes every occurrence,
not only the first, so for "a a jazz station station" the code strips
to "jazz" while the claimed first-occurrence-only stripping would give
"a jazz station"; the tag actually searched is "jazz" — visible through
a tag-search oracle that only answers for "jazz". -/
theorem genre_c4_counterexample :
    genre_strip "a a jazz station station" = "jazz" ∧
    genre_strip_firstOnly "a a jazz station station" = "a jazz station" ∧
    genre_strip "a a jazz station station" ≠
      genre_strip_firstOnly "a a jazz station station" ∧
    match_genre false (fun _ => ([] : List Station))
        (fun tag _ => if tag == "jazz" then [⟨"J", "http://jazz.example"⟩] else [])
        "a a jazz station station" =
      .ok (some ("a a jazz station station", CPSMatchLevel.EXACT,
        [("url", "http://jazz.example")])) :=
  ⟨rfl, rfl, by decide, rfl⟩

/-- C4 amended: `match_genre` searches by tag using the phrase
lower-cased with *all* occurrences of "a " and then of " station"
removed (in that order), with the ordering parameter "votes"; the
search depends on the tag oracle only at that stripped tag.  For
"jazz radio station" the stripped tag is exactly "jazz radio". -/
theorem genre_c4_amended (rbF : Bool) (search : String → List Station)
    (t1 t2 : String → String → List Station) (phrase : String)
    (h : t1 (genre_strip phrase) "votes" = t2 (genre_strip phrase) "votes") :
    match_genre rbF search t1 phrase = match_genre rbF search t2 phrase ∧
    genre_strip "jazz radio station" = "jazz radio" ∧
    genre_strip phrase =
      pyReplace (pyReplace (pyLower phrase) "a " "") " station" "" := by
  refine ⟨?_, rfl, rfl⟩
  cases rbF
  · simp only [match_genre, Bool.false_eq_true, if_false]
    rw [h]
  · rfl

/-- Witness for C4 amended at concrete oracles and phrase. -/
theorem genre_c4_amended_witness :
    match_genre false (fun _ => ([] : List Station))
        (fun _ _ => ([] : List Station)) "pop" =
      match_genre false (fun _ => ([] : List Station))
        (fun _ _ => ([] : List Station)) "pop" ∧
    genre_strip "jazz radio station" = "jazz radio" ∧
    genre_strip "pop" =
      pyReplace (pyReplace (pyLower "pop") "a " "") " station" "" :=
  genre_c4_amended false (fun _ => []) (fun _ _ => []) (fun _ _ => []) "pop" rfl

/-- C7 counterexample: a transcript with two sink blocks, only the
first containing VLC, but with no preceding line before the first
block: `find_vlc` discards the first line unexamined, misses the VLC
block's index 5 and returns -1, not the VLC block's index. -/
theorem find_vlc_c7_counterexample :
    find_vlc ["index: 5", "application.name = \"VLC media player\"",
      "index: 7", "application.name = \"Firefox\""] = .ok (-1) ∧
    (-1 : Int) ≠ 5 :=
  ⟨rfl, by decide⟩

/-- C9: `CPS_start` stops current playback (exactly when the audio
service reports playing) before playing the supplied URL, and the play
call is always issued: the action trace is the optional stop followed
by the play, with no error. -/
theorem cps_start_c9 (isPlaying : Bool) (data : PyDict) (url : String)
    (h : dictGet data "url" = some url) :
    CPS_start isPlaying data =
      ((if isPlaying then [AudioAction.stop] else []) ++ [AudioAction.play url],
        none) ∧
    (CPS_start isPlaying data).1.getLast? = some (AudioAction.play url) ∧
    (isPlaying = true → (CPS_start isPlaying data).1.head? = some AudioAction.stop) := by
  cases isPlaying <;> simp [CPS_start, h]

/-- Witness for C9 with playback in progress and a concrete url. -/
theorem cps_start_c9_witness :
    CPS_start true [("url", "http://stream.example")] =
      ((if true then [AudioAction.stop] else []) ++
        [AudioAction.play "http://stream.example"], none) ∧
    (CPS_start true [("url", "http://stream.example")]).1.getLast? =
      some (AudioAction.play "http://stream.example") ∧
    (true = true → (CPS_start true [("url", "http://stream.example")]).1.head? =
      some AudioAction.stop) :=
  cps_start_c9 true [("url", "http://stream.example")] "http://stream.example" rfl

/-- C10: `find_vlc` reads and discards the first response line before
the scanning loop examines anything: when the very first line is a
block's `index:` line that index is lost (the same block data preceded
by a harmless first line yields 5, without it the result is -1 even
though the VLC block is present). -/
theorem find_vlc_c10 :
    find_vlc ["index: 5", "application.name = \"VLC media player\""] =
      .ok (-1) ∧
    find_vlc ["pulseaudio cli prompt",
      "index: 5", "application.name = \"VLC media player\""] = .ok 5 :=
  ⟨rfl, rfl⟩

/-- C7 amended: for a transcript whose two sink blocks are preceded by
a (non-empty) first response line — which `find_vlc` consumes
unexamined — `find_vlc` returns the index of the first block whose
`application.name` line contains "VLC", and -1 when neither does.
Without such a preceding line the first block's `index:` line is
discarded (see the counterexample). -/
theorem find_vlc_c7_amended (header : String) (d1 : Char) (t1 : List Char)
    (a1 : String) (d2 : Char) (t2 : List Char) (a2 : String)
    (hh : pyTruthy header = true)
    (hd1 : d1.isDigit = true) (ht1 : ∀ c ∈ t1, c.isDigit = true)
    (hd2 : d2.isDigit = true) (ht2 : ∀ c ∈ t2, c.isDigit = true)
    (hia1 : containsStr "index" (appLine a1) = false)
    (hia2 : containsStr "index" (appLine a2) = false)
    (han1 : containsStr "application.name" (indexLine (d1 :: t1)) = false)
    (han2 : containsStr "application.name" (indexLine (d2 :: t2)) = false) :
    find_vlc [header, indexLine (d1 :: t1), appLine a1,
        indexLine (d2 :: t2), appLine a2] =
      .ok (if containsStr "VLC" (appLine a1) then
          Int.ofNat (charsToNat (d1 :: t1))
        else if containsStr "VLC" (appLine a2) then
          Int.ofNat (charsToNat (d2 :: t2))
        else -1) := by
  have e0 : find_vlc [header, indexLine (d1 :: t1), appLine a1,
      indexLine (d2 :: t2), appLine a2] =
      find_vlc_go header [indexLine (d1 :: t1), appLine a1,
        indexLine (d2 :: t2), appLine a2] (-1) (-1) := rfl
  rw [e0, find_vlc_go_cons _ _ _ _ _ hh,
    readLineStep_indexLine _ _ _ hd1 ht1]
  dsimp only
  rw [if_pos (neg_one_lt_ofNat _), han1]
  simp only [Bool.false_eq_true, if_false]
  rw [find_vlc_go_cons _ _ _ _ _ (pyTruthy_indexLine _),
    readLineStep_skip _ _ hia1]
  dsimp only
  rw [if_pos (neg_one_lt_ofNat _), contains_appname_appLine]
  simp only [if_true]
  cases hv1 : containsStr "VLC" (appLine a1) with
  | true => simp
  | false =>
    simp only [Bool.false_eq_true, if_false]
    rw [find_vlc_go_cons _ _ _ _ _ (pyTruthy_appLine _),
      readLineStep_indexLine _ _ _ hd2 ht2]
    dsimp only
    rw [if_pos (neg_one_lt_ofNat _), han2]
    simp only [Bool.false_eq_true, if_false]
    rw [find_vlc_go_cons _ _ _ _ _ (pyTruthy_indexLine _),
      readLineStep_skip _ _ hia2]
    dsimp only
    rw [if_pos (neg_one_lt_ofNat _), contains_appname_appLine]
    simp only [if_true]
    cases hv2 : containsStr "VLC" (appLine a2) with
    | true => simp
    | false =>
      simp only [Bool.false_eq_true, if_false]
      rw [find_vlc_go_nil]

/-- Witness for C7 amended on a concrete transcript (VLC in the second
block, indices 5 and 7). -/
theorem find_vlc_c7_amended_witness :
    find_vlc ["pulseaudio cli greeting", indexLine ['5'], appLine "Firefox",
        indexLine ['7'], appLine "VLC media player"] =
      .ok (if containsStr "VLC" (appLine "Firefox") then
          Int.ofNat (charsToNat ['5'])
        else if containsStr "VLC" (appLine "VLC media player") then
          Int.ofNat (charsToNat ['7'])
        else -1) :=
  find_vlc_c7_amended "pulseaudio cli greeting" '5' [] "Firefox" '7' []
    "VLC media player" rfl rfl (by intro c hc; cases hc) rfl
    (by intro c hc; cases hc) (by decide) (by decide) (by decide) (by decide)

/-- C8: for any sink id with a known info record, `set_volume(id, 0.6)`
sends a write request whose flat scalar is exactly 0.6, independent of
the prior volume; the target fraction defaults to 0.5; and whenever
`handle_intent` (which invokes `set_volume(vlc, 0.6)`) succeeds, the
written descriptor's flat value is 0.6. -/
theorem set_volume_c8 (pulse : Int → Option SinkInputInfo) (sink : Int)
    (client : SinkInputInfo) (h : pulse sink = some client) :
    set_volume pulse sink 0.6 = .ok (sink, { value_flat := 0.6 }) ∧
    (∀ (p2 : Int → Option SinkInputInfo) (i2 : Int),
      set_volume p2 i2 = set_volume p2 i2 (1 / 2)) ∧
    ∀ (rbF : Bool) (search : String → List Station)
      (transcript : List String) (slot url : String) (w : Int × PulseVolume),
      handle_intent rbF search pulse transcript slot = .ok (url, w) →
      w.2.value_flat = 0.6 := by
  refine ⟨by simp [set_volume, h], fun _ _ => rfl, ?_⟩
  intro rbF search transcript slot url w hw
  simp only [handle_intent] at hw
  cases hmsn : match_station_name rbF search slot with
  | error e => rw [hmsn] at hw; simp at hw
  | ok o =>
    rw [hmsn] at hw
    match o with
    | none => simp at hw
    | some (p, lvl, d) =>
      simp only at hw
      cases hurl : dictGet d "url" with
      | none => rw [hurl] at hw; simp at hw
      | some url2 =>
        rw [hurl] at hw
        cases hvlc : find_vlc transcript with
        | error e => rw [hvlc] at hw; simp at hw
        | ok vlc =>
          rw [hvlc] at hw
          dsimp only at hw
          cases hpl : pulse vlc with
          | none =>
            rw [show set_volume pulse vlc 0.6 =
              .error .pulseIndexError by simp [set_volume, hpl]] at hw
            simp at hw
          | some c2 =>
            rw [show set_volume pulse vlc 0.6 =
              .ok (vlc, { value_flat := 0.6 }) by simp [set_volume, hpl]] at hw
            simp only [Except.ok.injEq, Prod.mk.injEq] at hw
            rw [← hw.2]

/-- Witness for C8 at a concrete pulse state and sink id. -/
theorem set_volume_c8_witness :
    set_volume (fun _ => some ⟨⟨1 / 4⟩⟩) 3 0.6 = .ok (3, { value_flat := 0.6 }) ∧
    (∀ (p2 : Int → Option SinkInputInfo) (i2 : Int),
      set_volume p2 i2 = set_volume p2 i2 (1 / 2)) ∧
    ∀ (rbF : Bool) (search : String → List Station)
      (transcript : List String) (slot url : String) (w : Int × PulseVolume),
      handle_intent rbF search (fun _ => some ⟨⟨1 / 4⟩⟩) transcript slot =
        .ok (url, w) →
      w.2.value_flat = 0.6 :=
  set_volume_c8 (fun _ => some ⟨⟨1 / 4⟩⟩) 3 ⟨⟨1 / 4⟩⟩ rfl
